import Mathlib

/-!
Verification development for the `simple_shapes_dataset` repository.

This file shallowly embeds `simple_shapes_dataset/domain.py` in Lean:
each Python class becomes a structure holding its instance attributes,
its `__init__` becomes an `init` function into `Except PyError`, and
`__len__` / `__getitem__` become `len` / `getitem`.  Numeric payloads
(numpy / torch float arrays) are modelled as rational numbers, a 1-D
array as `List Rat` and a 2-D array as a list of rows.  The filesystem
seen by `np.load` is modelled as a finite association list from path
strings to typed array contents.  Python / numpy / torch integer
indexing (negative indices wrap once; anything still out of range
raises `IndexError`) is modelled by `pyGet`.
-/

namespace SimpleShapes

/-- Python exceptions that the embedded code can raise. -/
inductive PyError where
  | indexError
  | fileNotFoundError
  | keyError (k : String)
  | valueError (msg : String)
  | assertionError (msg : String)
  | typeError
  | unknownDomainError
  | invalidProportionError
deriving DecidableEq

/-- A Python value that can appear in an `additional_args` dict. -/
inductive PyVal where
  | str (s : String)
  | bool (b : Bool)
  | int (n : Int)
deriving DecidableEq

/-- Python `str(...)` / f-string conversion of an args value. -/
def PyVal.toStr : PyVal → String
  | .str s => s
  | .bool b => if b then "True" else "False"
  | .int n => toString n

/-- Python truthiness, as used by `if self.additional_args["use_unpaired"]:`. -/
def PyVal.truthy : PyVal → Bool
  | .str s => s ≠ ""
  | .bool b => b
  | .int n => n ≠ 0

/-- Python integer comparison coercion (`bool` is an `int`; comparing a
`str` with an `int` raises `TypeError`), used by `n_unpaired >= 1`. -/
def PyVal.toIntE : PyVal → Except PyError Int
  | .int n => .ok n
  | .bool b => .ok (if b then 1 else 0)
  | .str _ => .error .typeError

/-- A Python `dict[str, Any]` as an association list (insertion ordered). -/
abbrev PyDict := List (String × PyVal)

/-- `d[k]` on a Python dict: `KeyError` when the key is absent. -/
def dictGet (d : PyDict) (k : String) : Except PyError PyVal :=
  match d.lookup k with
  | some v => .ok v
  | none => .error (.keyError k)

/-- `d.get(k, default)` followed by f-string conversion, as in
`self.additional_args.get("latent_filename", "latent")`. -/
def dictGetStrD (d : PyDict) (k : String) (dflt : String) : String :=
  match d.lookup k with
  | some v => v.toStr
  | none => dflt

/-- `d[k] = v` on a Python dict: replaces in place or appends. -/
def dictSet (d : PyDict) (k : String) (v : PyVal) : PyDict :=
  if d.any (fun p => p.1 == k) then d.map (fun p => if p.1 == k then (k, v) else p)
  else d ++ [(k, v)]

/-- `d.update(overlay)` on a Python dict. -/
def dictUpdate (d : PyDict) (overlay : PyDict) : PyDict :=
  overlay.foldl (fun acc p => dictSet acc p.1 p.2) d

/-- One row of a 2-D float array. -/
abbrev Row := List Rat

/-- A 2-D float array (numpy / torch), row major. -/
abbrev Table := List Row

/-- Python / numpy / torch index normalization: a negative index has the
length added once. -/
def pyWrap (n : Nat) (i : Int) : Int := if i < 0 then i + n else i

/-- Python / numpy / torch sequence indexing `xs[i]`: negative indices wrap
once; a still-out-of-range index raises `IndexError`. -/
def pyGet (xs : List α) (i : Int) : Except PyError α :=
  if 0 ≤ pyWrap xs.length i then
    match xs.get? (pyWrap xs.length i).toNat with
    | some x => .ok x
    | none => .error .indexError
  else .error .indexError

/-- `torch.Tensor.long()` on a scalar: truncation toward zero. -/
def pyLong (q : Rat) : Int := if q < 0 then -((-q).floor) else q.floor

/-- The structured `caption_choices` record (`Choice` NamedTuple in the
source; its `structure` field is renamed `structure'` because `structure`
is a Lean keyword). -/
structure Choice where
  structure' : Int
  groups : List Int
  writers : List (String × List (String × Int))
  variants : List (String × Int)
deriving DecidableEq

/-- Contents of one `.npy` file: a 1-D float array, a 2-D float array, a
1-D string array (captions), or a 1-D array of pickled choice dicts. -/
inductive NpData where
  | f1 (v : List Rat)
  | f2 (t : Table)
  | strs (v : List String)
  | chs (v : List Choice)
deriving DecidableEq

/-- The filesystem visible to `np.load` / `Path.exists`: path → contents. -/
structure FS where
  files : List (String × NpData)

/-- `np.load(name)`: `FileNotFoundError` when the file is absent. -/
def FS.load (fs : FS) (name : String) : Except PyError NpData :=
  match fs.files.lookup name with
  | some d => .ok d
  | none => .error .fileNotFoundError

/-- `Path(name).exists()`. -/
def FS.existsFile (fs : FS) (name : String) : Bool :=
  (fs.files.lookup name).isSome

/-- Coerce loaded data to a 1-D float array (shape mismatch is modelled as
a `TypeError` at the point of use). -/
def NpData.asF1 : NpData → Except PyError (List Rat)
  | .f1 v => .ok v
  | _ => .error .typeError

/-- Coerce loaded data to a 2-D float array. -/
def NpData.asF2 : NpData → Except PyError Table
  | .f2 t => .ok t
  | _ => .error .typeError

/-- Coerce loaded data to a caption array. -/
def NpData.asStrs : NpData → Except PyError (List String)
  | .strs v => .ok v
  | _ => .error .typeError

/-- Coerce loaded data to a choice array. -/
def NpData.asChs : NpData → Except PyError (List Choice)
  | .chs v => .ok v
  | _ => .error .typeError

/-- The `assert split in ("train", "val", "test"), "Invalid split"` guard
shared by every concrete domain constructor. -/
def checkSplit (split : String) : Except PyError Unit :=
  if split = "train" ∨ split = "val" ∨ split = "test" then .ok ()
  else .error (.assertionError "Invalid split")

/-- An abstract decoded PIL image (opaque token; `convert("RGB")` is the
identity on this abstraction). -/
abbrev PILImage := Nat

/-- The image directories on disk: directory path → listing of
(file name, decoded image). -/
structure ImageDirs where
  dirs : List (String × List (String × PILImage))

/-- State of a `SimpleShapesImages` instance (the lazily cached length is
derived from `pngs`, so it is not stored separately). -/
structure SimpleShapesImages where
  datasetPath : String
  split : String
  pngs : List (String × PILImage)
  transform : Option (PILImage → PILImage)

/-- Body of `SimpleShapesImages.__init__` after the split assertion. -/
def SimpleShapesImages.initBody (env : ImageDirs) (datasetPath split : String)
    (transform : Option (PILImage → PILImage)) : Except PyError SimpleShapesImages :=
  pure { datasetPath, split,
         pngs := (env.dirs.lookup (datasetPath ++ "/" ++ split)).getD [],
         transform }

/-- `SimpleShapesImages.__init__`. -/
def SimpleShapesImages.init (env : ImageDirs) (datasetPath split : String)
    (transform : Option (PILImage → PILImage)) : Except PyError SimpleShapesImages := do
  checkSplit split
  SimpleShapesImages.initBody env datasetPath split transform

/-- `SimpleShapesImages.__len__`: count of `.png` files in the split dir. -/
def SimpleShapesImages.len (s : SimpleShapesImages) : Nat :=
  (s.pngs.filter (fun p => p.1.endsWith ".png")).length

/-- `SimpleShapesImages.__getitem__`: opens `{index}.png`
(`FileNotFoundError` when absent), converts to RGB, then applies the
optional transform. -/
def SimpleShapesImages.getitem (s : SimpleShapesImages) (index : Int) :
    Except PyError PILImage :=
  match s.pngs.lookup (toString index ++ ".png") with
  | none => .error .fileNotFoundError
  | some img =>
    match s.transform with
    | some f => .ok (f img)
    | none => .ok img

/-- The defaults of `PretrainedVisualAdditionalArgs` built in
`SimpleShapesPretrainedVisual.__init__`. -/
def pretrainedDefaults : PyDict :=
  [("presaved_path", .str "."), ("use_unpaired", .bool false)]

/-- State of a `SimpleShapesPretrainedVisual` instance. -/
structure SimpleShapesPretrainedVisual where
  latents : Table
  unpaired : List Rat
  additional_args : PyDict
  transform : Option (Row → Row)

/-- Body of `SimpleShapesPretrainedVisual.__init__` after the split
assertion: merge args over the defaults, load the presaved latents, then
either load column 1 of the unpaired file (asserting it exists) or store
a zero vector. -/
def SimpleShapesPretrainedVisual.initBody (fs : FS) (datasetPath split : String)
    (transform : Option (Row → Row)) (additional_args : Option PyDict) :
    Except PyError SimpleShapesPretrainedVisual := do
  let args := dictUpdate pretrainedDefaults (additional_args.getD [])
  let pv ← dictGet args "presaved_path"
  let latents ← (← fs.load (datasetPath ++ "/saved_latents/" ++ split ++ "/" ++ pv.toStr)).asF2
  let uv ← dictGet args "use_unpaired"
  if uv.truthy then
    if fs.existsFile (datasetPath ++ "/" ++ split ++ "_unpaired.npy") then
      let up ← (← fs.load (datasetPath ++ "/" ++ split ++ "_unpaired.npy")).asF2
      let col ← up.mapM (fun row => pyGet row 1)
      pure { latents, unpaired := col, additional_args := args, transform }
    else
      throw (.assertionError "")
  else
    pure { latents, unpaired := List.replicate latents.length 0,
           additional_args := args, transform }

/-- `SimpleShapesPretrainedVisual.__init__`. -/
def SimpleShapesPretrainedVisual.init (fs : FS) (datasetPath split : String)
    (transform : Option (Row → Row)) (additional_args : Option PyDict) :
    Except PyError SimpleShapesPretrainedVisual := do
  checkSplit split
  SimpleShapesPretrainedVisual.initBody fs datasetPath split transform additional_args

/-- `SimpleShapesPretrainedVisual.__len__`. -/
def SimpleShapesPretrainedVisual.len (s : SimpleShapesPretrainedVisual) : Nat :=
  s.latents.length

/-- `SimpleShapesPretrainedVisual.__getitem__`: reads
`additional_args["use_unpaired"]`, then returns `latents[index]`,
concatenated with `[unpaired[index]]` in the unpaired case.  Note that
the stored transform is never consulted (mirroring the source). -/
def SimpleShapesPretrainedVisual.getitem (s : SimpleShapesPretrainedVisual)
    (index : Int) : Except PyError Row := do
  let uv ← dictGet s.additional_args "use_unpaired"
  if uv.truthy then
    let row ← pyGet s.latents index
    let u ← pyGet s.unpaired index
    pure (row ++ [u])
  else
    let row ← pyGet s.latents index
    pure row

/-- The `Attribute` NamedTuple. -/
structure Attribute where
  category : Int
  x : Rat
  y : Rat
  size : Rat
  rotation : Rat
  color_r : Rat
  color_g : Rat
  color_b : Rat
  unpaired : Option Row
deriving DecidableEq

/-- State of a `SimpleShapesAttributes` instance. -/
structure SimpleShapesAttributes where
  labels : Table
  unpaired : Option Table
  transform : Option (Attribute → Attribute)

/-- The default `AttributesAdditionalArgs`. -/
def attributesDefaults : PyDict := [("n_unpaired", .int 0)]

/-- Body of `SimpleShapesAttributes.__init__` after the split assertion:
load the labels, take `additional_args or default_args` (a falsy — empty —
dict also falls back to the defaults), and when `n_unpaired >= 1` require
and load the unpaired file, slicing columns `2 : 2 + n_unpaired`. -/
def SimpleShapesAttributes.initBody (fs : FS) (datasetPath split : String)
    (transform : Option (Attribute → Attribute)) (additional_args : Option PyDict) :
    Except PyError SimpleShapesAttributes := do
  let labels ← (← fs.load (datasetPath ++ "/" ++ split ++ "_labels.npy")).asF2
  let args := match additional_args with
    | some d => if d.isEmpty then attributesDefaults else d
    | none => attributesDefaults
  let nv ← dictGet args "n_unpaired"
  let n ← nv.toIntE
  if 1 ≤ n then
    if fs.existsFile (datasetPath ++ "/" ++ split ++ "_unpaired.npy") then
      let up ← (← fs.load (datasetPath ++ "/" ++ split ++ "_unpaired.npy")).asF2
      pure { labels,
             unpaired := some (up.map (fun row => (row.drop 2).take n.toNat)),
             transform }
    else
      throw (.valueError
        "Asking for an unpaired attribute, but there is no unpaired label file.")
  else
    pure { labels, unpaired := none, transform }

/-- `SimpleShapesAttributes.__init__`. -/
def SimpleShapesAttributes.init (fs : FS) (datasetPath split : String)
    (transform : Option (Attribute → Attribute)) (additional_args : Option PyDict) :
    Except PyError SimpleShapesAttributes := do
  checkSplit split
  SimpleShapesAttributes.initBody fs datasetPath split transform additional_args

/-- `SimpleShapesAttributes.__len__`. -/
def SimpleShapesAttributes.len (s : SimpleShapesAttributes) : Nat :=
  s.labels.length

/-- `SimpleShapesAttributes.__getitem__`: row lookup, field decomposition
(with the three color channels divided by 255 and the category cast to an
integer), then the optional transform. -/
def SimpleShapesAttributes.getitem (s : SimpleShapesAttributes) (index : Int) :
    Except PyError Attribute := do
  let label ← pyGet s.labels index
  let u ← match s.unpaired with
    | some up => do
        let r ← pyGet up index
        pure (some r)
    | none => pure (none : Option Row)
  let c0 ← pyGet label 0
  let c1 ← pyGet label 1
  let c2 ← pyGet label 2
  let c3 ← pyGet label 3
  let c4 ← pyGet label 4
  let c5 ← pyGet label 5
  let c6 ← pyGet label 6
  let c7 ← pyGet label 7
  let item : Attribute :=
    { category := pyLong c0, x := c1, y := c2, size := c3, rotation := c4,
      color_r := c5 / 255, color_g := c6 / 255, color_b := c7 / 255, unpaired := u }
  match s.transform with
  | some f => pure (f item)
  | none => pure item

/-- The `RawText` NamedTuple. -/
structure RawText where
  caption : String
  choice : Choice
deriving DecidableEq

/-- State of a `SimpleShapesRawText` instance.  Its `dataset_size` is
`len(self.captions)`; no cross-table length check is performed. -/
structure SimpleShapesRawText where
  captions : List String
  choices : List Choice
  transform : Option (RawText → RawText)

/-- Body of `SimpleShapesRawText.__init__` after the split assertion. -/
def SimpleShapesRawText.initBody (fs : FS) (datasetPath split : String)
    (transform : Option (RawText → RawText)) (additional_args : Option PyDict) :
    Except PyError SimpleShapesRawText := do
  let captions ← (← fs.load (datasetPath ++ "/" ++ split ++ "_captions.npy")).asStrs
  let choices ← (← fs.load (datasetPath ++ "/" ++ split ++ "_caption_choices.npy")).asChs
  pure { captions, choices, transform }

/-- `SimpleShapesRawText.__init__`. -/
def SimpleShapesRawText.init (fs : FS) (datasetPath split : String)
    (transform : Option (RawText → RawText)) (additional_args : Option PyDict) :
    Except PyError SimpleShapesRawText := do
  checkSplit split
  SimpleShapesRawText.initBody fs datasetPath split transform additional_args

/-- `SimpleShapesRawText.__len__` (from the captions table alone). -/
def SimpleShapesRawText.len (s : SimpleShapesRawText) : Nat :=
  s.captions.length

/-- `SimpleShapesRawText.__getitem__`. -/
def SimpleShapesRawText.getitem (s : SimpleShapesRawText) (index : Int) :
    Except PyError RawText := do
  let cap ← pyGet s.captions index
  let ch ← pyGet s.choices index
  let item : RawText := { caption := cap, choice := ch }
  match s.transform with
  | some f => pure (f item)
  | none => pure item

/-- The `Text` NamedTuple. -/
structure Text where
  caption : String
  bert : Row
  choice : Choice
  attr : Attribute
deriving DecidableEq

/-- State of a `SimpleShapesText` instance: delegated raw-text and
attribute sources plus the normalized embedding table. -/
structure SimpleShapesText where
  raw_text : SimpleShapesRawText
  attributes : SimpleShapesAttributes
  bert_data : Table
  transform : Option (Text → Text)

/-- Row-wise `(bert_data - bert_mean) / bert_std` broadcasting. -/
def normalizeRow (row mean std : Row) : Row :=
  (row.zipWith (· - ·) mean).zipWith (· / ·) std

/-- Body of `SimpleShapesText.__init__` after the split assertion: read
`latent_filename` (default `"latent"`), construct the delegated raw-text
and attribute sources with no transform and no args, load mean / std /
embedding files, assert the embedding array is 2-D, and store the
normalized embedding table. -/
def SimpleShapesText.initBody (fs : FS) (datasetPath split : String)
    (transform : Option (Text → Text)) (additional_args : Option PyDict) :
    Except PyError SimpleShapesText := do
  let args := additional_args.getD []
  let latentFilename := dictGetStrD args "latent_filename" "latent"
  let rawText ← SimpleShapesRawText.init fs datasetPath split none none
  let attributes ← SimpleShapesAttributes.init fs datasetPath split none none
  let mean ← (← fs.load (datasetPath ++ "/" ++ latentFilename ++ "_mean.npy")).asF1
  let std ← (← fs.load (datasetPath ++ "/" ++ latentFilename ++ "_std.npy")).asF1
  let bertRaw ← fs.load (datasetPath ++ "/" ++ split ++ "_" ++ latentFilename ++ ".npy")
  let bertTable ← match bertRaw with
    | .f2 t => pure t
    | .f1 _ => throw (PyError.assertionError "")
    | _ => throw PyError.typeError
  pure { raw_text := rawText, attributes,
         bert_data := bertTable.map (fun row => normalizeRow row mean std),
         transform }

/-- `SimpleShapesText.__init__`. -/
def SimpleShapesText.init (fs : FS) (datasetPath split : String)
    (transform : Option (Text → Text)) (additional_args : Option PyDict) :
    Except PyError SimpleShapesText := do
  checkSplit split
  SimpleShapesText.initBody fs datasetPath split transform additional_args

/-- `SimpleShapesText.__len__` (from the embedding table alone). -/
def SimpleShapesText.len (s : SimpleShapesText) : Nat :=
  s.bert_data.length

/-- `SimpleShapesText.__getitem__`: joined record built by parallel
lookup (the raw-text source is consulted once for the caption and once
for the choice, mirroring the two `self.raw_text[index]` calls). -/
def SimpleShapesText.getitem (s : SimpleShapesText) (index : Int) :
    Except PyError Text := do
  let r1 ← s.raw_text.getitem index
  let bert ← pyGet s.bert_data index
  let r2 ← s.raw_text.getitem index
  let a ← s.attributes.getitem index
  let item : Text := { caption := r1.caption, bert, choice := r2.choice, attr := a }
  match s.transform with
  | some f => pure (f item)
  | none => pure item

/-- Modelled from the spec: the repository's domain-alignment partitioner
(`domain_alignment.py`) is not under `src/`; this models §4.4 of the spec.
A request carries the per-domain reference lengths, the proportion spec,
the size cap (`0` means unbounded) and the seed. -/
structure PartitionRequest where
  domainSizes : List (String × Nat)
  proportions : List (List String × Rat)
  maxSize : Nat
  seed : Nat
deriving DecidableEq

/-- Modelled from the spec: one step of a 64-bit linear congruential
generator, the explicit named deterministic pseudo-random generator the
spec asks for (§9). -/
def lcgNext (s : Nat) : Nat :=
  (6364136223846793005 * s + 1442695040888963407) % (2 ^ 64)

/-- Modelled from the spec: Fisher–Yates draws from `xs` driven by the
LCG stream, with explicit fuel (one draw per element). -/
def fyAux : Nat → Nat → List Nat → List Nat
  | 0, _, _ => []
  | fuel + 1, s, xs =>
    if xs.isEmpty then []
    else
      xs.getD (s % xs.length) 0 :: fyAux fuel (lcgNext s) (xs.eraseIdx (s % xs.length))

/-- Modelled from the spec: the deterministic permutation of `[0, n)`
derived from `seed` (§4.4 step 2). -/
def seededPerm (seed n : Nat) : List Nat :=
  fyAux n (lcgNext seed) (List.range n)

/-- Modelled from the spec: validation of a proportion spec — every
referenced domain must be known (`UnknownDomainError`) and every
proportion must lie in `(0, 1]` (`InvalidProportionError`) — performed
before any permutation work (§4.4 edge cases). -/
def checkGroups (ds : List (String × Nat)) : List (List String × Rat) → Except PyError Unit
  | [] => .ok ()
  | (g, p) :: rest =>
    if g.all (fun d => (ds.lookup d).isSome) then
      if 0 < p ∧ p ≤ 1 then checkGroups ds rest
      else .error .invalidProportionError
    else .error .unknownDomainError

/-- Modelled from the spec: the reference size `N`, the minimum length
across all domains referenced by the union of the group keys (§4.4
step 1). -/
def refLen (ds : List (String × Nat)) (groups : List (List String × Rat)) : Nat :=
  match ((groups.map Prod.fst).flatten).filterMap (fun d => ds.lookup d) with
  | [] => 0
  | s :: rest => rest.foldl min s

/-- Modelled from the spec: `count(g) = min(max_size if max_size > 0 else
N, round(p * N))` (§4.4 step 3). -/
def partitionCount (maxSize : Nat) (p : Rat) (n : Nat) : Nat :=
  min (if 0 < maxSize then maxSize else n) (round (p * (n : Rat))).toNat

/-- Modelled from the spec: the Domain Alignment Partitioner — validate,
compute `N`, derive the seeded permutation, and give every group the
head of that shared permutation, truncated to its count (§4.4). -/
def partition (req : PartitionRequest) : Except PyError (List (List String × List Nat)) := do
  checkGroups req.domainSizes req.proportions
  let n := refLen req.domainSizes req.proportions
  let perm := seededPerm req.seed n
  pure (req.proportions.map (fun gp => (gp.1, perm.take (partitionCount req.maxSize gp.2 n))))

deriving instance DecidableEq for Except

/-- The decoded `Attribute` produced from one label row with no unpaired
slice and no transform (used to state `__getitem__` results). -/
def attrOfRow (row : Row) : Attribute :=
  { category := pyLong (row.getD 0 0), x := row.getD 1 0, y := row.getD 2 0,
    size := row.getD 3 0, rotation := row.getD 4 0, color_r := row.getD 5 0 / 255,
    color_g := row.getD 6 0 / 255, color_b := row.getD 7 0 / 255, unpaired := none }

/-- The spec's round-trip request: two domains of length 4, groups
`{A,B}: 0.5`, `{A}: 1.0`, `{B}: 1.0`, no size cap, seed 0. -/
def reqW : PartitionRequest :=
  { domainSizes := [("A", 4), ("B", 4)],
    proportions := [(["A", "B"], 1 / 2), (["A"], 1), (["B"], 1)],
    maxSize := 0, seed := 0 }

/-- A trivial concrete choice record for witnesses. -/
def ch0 : Choice := ⟨0, [], [], []⟩

/-- A filesystem whose caption table (2 rows) and choice table (1 row)
disagree in length. -/
def fsMM : FS :=
  ⟨[("d/train_captions.npy", .strs ["a", "b"]),
    ("d/train_caption_choices.npy", .chs [ch0])]⟩

/-- A filesystem holding only the default presaved latent file. -/
def fsPre : FS := ⟨[("d/saved_latents/train/.", .f2 [[1]])]⟩

/-- A filesystem holding every file `SimpleShapesText` needs for the
`train` split of dataset `d`. -/
def fsTextAll : FS :=
  ⟨[("d/train_captions.npy", .strs ["a"]),
    ("d/train_caption_choices.npy", .chs [ch0]),
    ("d/train_labels.npy", .f2 [[0, 0, 0, 0, 0, 0, 0, 0]]),
    ("d/latent_mean.npy", .f1 [0]),
    ("d/latent_std.npy", .f1 [1]),
    ("d/train_latent.npy", .f2 [[2]])]⟩

/-- A filesystem holding only a labels file for the `train` split. -/
def fsLab : FS := ⟨[("d/train_labels.npy", .f2 [[9, 1, 2, 3, 4, 51, 102, 255]])]⟩

/-! ### Reduction lemmas for the `Except` monad and Python indexing -/

@[simp] theorem exBind_ok (a : α) (f : α → Except PyError β) :
    (Except.ok a >>= f : Except PyError β) = f a := rfl

@[simp] theorem exBind_err (e : PyError) (f : α → Except PyError β) :
    (Except.error e >>= f : Except PyError β) = .error e := rfl

@[simp] theorem exPure (a : α) : (pure a : Except PyError α) = .ok a := rfl

theorem checkSplit_ok (split : String)
    (h : split = "train" ∨ split = "val" ∨ split = "test") :
    checkSplit split = .ok () := by
  simp [checkSplit, h]

theorem checkSplit_err (split : String) (h1 : split ≠ "train") (h2 : split ≠ "val")
    (h3 : split ≠ "test") : checkSplit split = .error (.assertionError "Invalid split") := by
  simp [checkSplit, h1, h2, h3]

theorem pyGet_lt (xs : List α) (i : Nat) (h : i < xs.length) :
    pyGet xs (i : Int) = .ok (xs.get ⟨i, h⟩) := by
  have h0 : ¬ ((i : Int) < 0) := by omega
  simp [pyGet, pyWrap, h0, Int.toNat_natCast, List.getElem?_eq_getElem h,
    List.get_eq_getElem]

theorem pyGet_ge (xs : List α) (i : Nat) (h : xs.length ≤ i) :
    pyGet xs (i : Int) = .error .indexError := by
  have h0 : ¬ ((i : Int) < 0) := by omega
  simp [pyGet, pyWrap, h0, Int.toNat_natCast, List.getElem?_eq_none h]

theorem pyGet_len (xs : List α) : pyGet xs (xs.length : Int) = .error .indexError :=
  pyGet_ge xs xs.length le_rfl

theorem pyWrap_negOne (n : Nat) : pyWrap n (-1) = pyWrap n ((n : Int) - 1) := by
  simp only [pyWrap]
  split_ifs <;> omega

theorem pyGet_negOne (xs : List α) :
    pyGet xs (-1) = pyGet xs ((xs.length : Int) - 1) := by
  unfold pyGet
  rw [pyWrap_negOne]

theorem ratFloor_eq_floor (q : Rat) : Rat.floor q = ⌊q⌋ := rfl

@[simp] theorem exThrow (e : PyError) : (throw e : Except PyError α) = .error e := rfl

theorem FS.load_none (fs : FS) (name : String) (h : fs.files.lookup name = none) :
    fs.load name = .error .fileNotFoundError := by
  simp [FS.load, h]

theorem exists_eight {α : Type _} (row : List α) (hrow : 8 ≤ row.length) :
    ∃ a0 a1 a2 a3 a4 a5 a6 a7 rest,
      row = a0 :: a1 :: a2 :: a3 :: a4 :: a5 :: a6 :: a7 :: rest := by
  rcases row with _ | ⟨a0, row⟩
  · simp at hrow
  rcases row with _ | ⟨a1, row⟩
  · simp at hrow
  rcases row with _ | ⟨a2, row⟩
  · simp at hrow
  rcases row with _ | ⟨a3, row⟩
  · simp at hrow
  rcases row with _ | ⟨a4, row⟩
  · simp at hrow
  rcases row with _ | ⟨a5, row⟩
  · simp at hrow
  rcases row with _ | ⟨a6, row⟩
  · simp at hrow
  rcases row with _ | ⟨a7, row⟩
  · simp at hrow
  exact ⟨a0, a1, a2, a3, a4, a5, a6, a7, row, rfl⟩

theorem attributesGetitem_row (labels : Table) (row : Row) (i : Int)
    (hget : pyGet labels i = .ok row) (hrow : 8 ≤ row.length) :
    SimpleShapesAttributes.getitem ⟨labels, none, none⟩ i = .ok (attrOfRow row) := by
  obtain ⟨a0, a1, a2, a3, a4, a5, a6, a7, rest, rfl⟩ := exists_eight row hrow
  simp only [SimpleShapesAttributes.getitem, hget, exBind_ok]
  rfl

theorem rawTextGetitem_none (caps : List String) (chs : List Choice) (i : Nat)
    (hic : i < caps.length) (hich : i < chs.length) :
    SimpleShapesRawText.getitem ⟨caps, chs, none⟩ (i : Int) =
      .ok ⟨caps.get ⟨i, hic⟩, chs.get ⟨i, hich⟩⟩ := by
  simp [SimpleShapesRawText.getitem, pyGet_lt _ _ hic, pyGet_lt _ _ hich]

theorem rawTextInit_ok (fs : FS) (dp split : String) (t : Option (RawText → RawText))
    (a : Option PyDict) (caps : List String) (chs : List Choice)
    (hsplit : split = "train" ∨ split = "val" ∨ split = "test")
    (hc : fs.load (dp ++ "/" ++ split ++ "_captions.npy") = .ok (.strs caps))
    (hch : fs.load (dp ++ "/" ++ split ++ "_caption_choices.npy") = .ok (.chs chs)) :
    SimpleShapesRawText.init fs dp split t a = .ok ⟨caps, chs, t⟩ := by
  simp [SimpleShapesRawText.init, SimpleShapesRawText.initBody,
    checkSplit_ok split hsplit, hc, hch, NpData.asStrs, NpData.asChs]

theorem attributesInit_default_ok (fs : FS) (dp split : String)
    (t : Option (Attribute → Attribute)) (labels : Table)
    (hsplit : split = "train" ∨ split = "val" ∨ split = "test")
    (hl : fs.load (dp ++ "/" ++ split ++ "_labels.npy") = .ok (.f2 labels)) :
    SimpleShapesAttributes.init fs dp split t none = .ok ⟨labels, none, t⟩ := by
  simp [SimpleShapesAttributes.init, SimpleShapesAttributes.initBody,
    checkSplit_ok split hsplit, hl, NpData.asF2, dictGet, attributesDefaults,
    PyVal.toIntE]

theorem textInit_ok (fs : FS) (dp split : String) (t : Option (Text → Text))
    (args : Option PyDict) (caps : List String) (chs : List Choice) (labels : Table)
    (mean std : Row) (bert : Table)
    (hsplit : split = "train" ∨ split = "val" ∨ split = "test")
    (hlf : dictGetStrD (args.getD []) "latent_filename" "latent" = "latent")
    (hc : fs.load (dp ++ "/" ++ split ++ "_captions.npy") = .ok (.strs caps))
    (hch : fs.load (dp ++ "/" ++ split ++ "_caption_choices.npy") = .ok (.chs chs))
    (hl : fs.load (dp ++ "/" ++ split ++ "_labels.npy") = .ok (.f2 labels))
    (hm : fs.load (dp ++ "/" ++ "latent" ++ "_mean.npy") = .ok (.f1 mean))
    (hs : fs.load (dp ++ "/" ++ "latent" ++ "_std.npy") = .ok (.f1 std))
    (hb : fs.load (dp ++ "/" ++ split ++ "_" ++ "latent" ++ ".npy") = .ok (.f2 bert)) :
    SimpleShapesText.init fs dp split t args =
      .ok ⟨⟨caps, chs, none⟩, ⟨labels, none, none⟩,
           bert.map (fun row => normalizeRow row mean std), t⟩ := by
  simp [SimpleShapesText.init, SimpleShapesText.initBody, checkSplit_ok split hsplit,
    hlf, rawTextInit_ok fs dp split none none caps chs hsplit hc hch,
    attributesInit_default_ok fs dp split none labels hsplit hl,
    hm, hs, hb, NpData.asF1]

theorem dictUpdate_single_new (d : PyDict) (k : String) (v : PyVal)
    (h : d.any (fun p => p.1 == k) = false) : dictUpdate d [(k, v)] = d ++ [(k, v)] := by
  simp [dictUpdate, dictSet, h]

/-! ### Claim theorems -/

/-- Claim C4 (code bug): contrary to the claim (and to the `DataDomain`
docstring, "Optional transform to apply to the data"),
`SimpleShapesPretrainedVisual.__getitem__` never applies the stored
transform: at latents `[[1]]` with a transform that prepends a `0`, index
`0` returns the raw row `[1]`, not the transformed `[0, 1]`. -/
theorem c4_pretrained_ignores_transform :
    SimpleShapesPretrainedVisual.getitem
      { latents := [[1]], unpaired := [0], additional_args := pretrainedDefaults,
        transform := some (fun r => 0 :: r) } 0 = .ok [1] ∧
    (fun (r : Row) => 0 :: r) [1] ≠ [1] :=
  ⟨by decide, by decide⟩

/-- Claim C1, counterexample: on a `SimpleShapesAttributes` source of
length 1, `get(-1)` does not raise `IndexError` — it returns the last
row's decoded attribute — and on a `SimpleShapesImages` source of length
1, `get(1)` raises `FileNotFoundError`, not `IndexError`. -/
theorem c1_counterexample :
    SimpleShapesAttributes.getitem ⟨[[1, 2, 3, 4, 5, 6, 7, 8]], none, none⟩ (-1) =
      .ok ⟨1, 2, 3, 4, 5, 6 / 255, 7 / 255, 8 / 255, none⟩ ∧
    SimpleShapesImages.getitem ⟨"d", "train", [("0.png", 7)], none⟩ 1 =
      .error .fileNotFoundError := by
  constructor
  · simp [SimpleShapesAttributes.getitem, pyGet, pyWrap, pyLong, ratFloor_eq_floor]
  · rfl

/-- Claim C1, amended: out-of-range nonnegative indices (`get(N)`) raise
`IndexError` on the tensor-backed sources (`SimpleShapesAttributes`,
`SimpleShapesPretrainedVisual`); `get(-1)` on them wraps to `get(N - 1)`
instead of raising; and `SimpleShapesImages.get` raises
`FileNotFoundError` whenever the file `{index}.png` is absent (in
particular at `N` and `-1`), never `IndexError`. -/
theorem c1_amended :
    (∀ sa : SimpleShapesAttributes,
      sa.getitem (sa.labels.length : Int) = .error .indexError) ∧
    (∀ (sp : SimpleShapesPretrainedVisual) (v : PyVal),
      dictGet sp.additional_args "use_unpaired" = .ok v →
      sp.getitem (sp.latents.length : Int) = .error .indexError) ∧
    (∀ sa : SimpleShapesAttributes, sa.unpaired = none →
      sa.getitem (-1) = sa.getitem ((sa.labels.length : Int) - 1)) ∧
    (∀ (sp : SimpleShapesPretrainedVisual) (v : PyVal),
      dictGet sp.additional_args "use_unpaired" = .ok v → v.truthy = false →
      sp.getitem (-1) = sp.getitem ((sp.latents.length : Int) - 1)) ∧
    (∀ (si : SimpleShapesImages) (i : Int),
      si.pngs.lookup (toString i ++ ".png") = none →
      si.getitem i = .error .fileNotFoundError) := by
  refine ⟨?_, ?_, ?_, ?_, ?_⟩
  · intro sa
    simp [SimpleShapesAttributes.getitem, pyGet_len]
  · intro sp v hv
    cases htv : v.truthy <;>
      simp [SimpleShapesPretrainedVisual.getitem, hv, htv, pyGet_len]
  · intro sa hu
    simp [SimpleShapesAttributes.getitem, hu, pyGet_negOne]
  · intro sp v hv htv
    simp [SimpleShapesPretrainedVisual.getitem, hv, htv, pyGet_negOne]
  · intro si i hmiss
    simp [SimpleShapesImages.getitem, hmiss]

/-- Claim C1, witness for the amended theorem at a length-1 attribute
source, a length-1 pretrained source and a length-1 image source. -/
theorem c1_witness :
    SimpleShapesAttributes.getitem ⟨[[1, 2, 3, 4, 5, 6, 7, 8]], none, none⟩
        ((([[1, 2, 3, 4, 5, 6, 7, 8]] : Table).length : Int)) = .error .indexError ∧
    SimpleShapesAttributes.getitem ⟨[[1, 2, 3, 4, 5, 6, 7, 8]], none, none⟩ (-1) =
      SimpleShapesAttributes.getitem ⟨[[1, 2, 3, 4, 5, 6, 7, 8]], none, none⟩
        ((([[1, 2, 3, 4, 5, 6, 7, 8]] : Table).length : Int) - 1) ∧
    SimpleShapesPretrainedVisual.getitem ⟨[[1]], [0], pretrainedDefaults, none⟩
        ((([[1]] : Table).length : Int)) = .error .indexError ∧
    SimpleShapesImages.getitem ⟨"d", "train", [("0.png", 7)], none⟩ (-1) =
      .error .fileNotFoundError :=
  ⟨c1_amended.1 ⟨[[1, 2, 3, 4, 5, 6, 7, 8]], none, none⟩,
   c1_amended.2.2.1 ⟨[[1, 2, 3, 4, 5, 6, 7, 8]], none, none⟩ rfl,
   c1_amended.2.1 ⟨[[1]], [0], pretrainedDefaults, none⟩ (.bool false) rfl,
   c1_amended.2.2.2.2 ⟨"d", "train", [("0.png", 7)], none⟩ (-1) rfl⟩

/-- Claim C5 (the partitioner is modelled from the spec, its code not
being under `src/`): the Domain Alignment Partitioner is deterministic —
two runs on equal requests (same seed, domains, proportions, max size)
give identical results, with the same group keys and the same index
sequences. -/
theorem c5_partition_deterministic (r1 r2 : PartitionRequest) (h : r1 = r2) :
    partition r1 = partition r2 ∧
    Except.map (List.map Prod.fst) (partition r1) =
      Except.map (List.map Prod.fst) (partition r2) ∧
    Except.map (List.map Prod.snd) (partition r1) =
      Except.map (List.map Prod.snd) (partition r2) := by
  subst h
  exact ⟨rfl, rfl, rfl⟩

/-- Claim C5, witness: two runs of the partitioner on the concrete
round-trip request coincide. -/
theorem c5_witness :
    partition reqW = partition reqW ∧
    Except.map (List.map Prod.fst) (partition reqW) =
      Except.map (List.map Prod.fst) (partition reqW) ∧
    Except.map (List.map Prod.snd) (partition reqW) =
      Except.map (List.map Prod.snd) (partition reqW) :=
  c5_partition_deterministic reqW reqW rfl

/-- Claim C6: `SimpleShapesPretrainedVisual.__getitem__` is a row lookup
into the preloaded latent table: with `use_unpaired` falsy it returns
exactly `latents[index]`, and with `use_unpaired` truthy it returns
`latents[index]` concatenated with the single per-row unpaired scalar
`unpaired[index]`. -/
theorem c6_pretrained_row_lookup (s : SimpleShapesPretrainedVisual) (v : PyVal) (i : Nat)
    (hv : dictGet s.additional_args "use_unpaired" = .ok v)
    (hi : i < s.latents.length) (hu : i < s.unpaired.length) :
    (v.truthy = false → s.getitem i = .ok (s.latents.get ⟨i, hi⟩)) ∧
    (v.truthy = true → s.getitem i =
      .ok (s.latents.get ⟨i, hi⟩ ++ [s.unpaired.get ⟨i, hu⟩])) := by
  constructor
  · intro ht
    simp [SimpleShapesPretrainedVisual.getitem, hv, ht, pyGet_lt _ _ hi]
  · intro ht
    simp [SimpleShapesPretrainedVisual.getitem, hv, ht, pyGet_lt _ _ hi, pyGet_lt _ _ hu]

/-- Claim C6, witness: a two-row latent table, with and without the
unpaired scalar. -/
theorem c6_witness :
    SimpleShapesPretrainedVisual.getitem ⟨[[3, 4], [5, 6]], [9, 10], pretrainedDefaults, none⟩ 1 =
      .ok [5, 6] ∧
    SimpleShapesPretrainedVisual.getitem
      ⟨[[3, 4], [5, 6]], [9, 10],
        [("presaved_path", .str "."), ("use_unpaired", .bool true)], none⟩ 1 =
      .ok [5, 6, 10] :=
  ⟨(c6_pretrained_row_lookup ⟨[[3, 4], [5, 6]], [9, 10], pretrainedDefaults, none⟩
      (.bool false) 1 rfl (by decide) (by decide)).1 rfl,
   (c6_pretrained_row_lookup
      ⟨[[3, 4], [5, 6]], [9, 10],
        [("presaved_path", .str "."), ("use_unpaired", .bool true)], none⟩
      (.bool true) 1 rfl (by decide) (by decide)).2 rfl⟩

/-- Claim C9: every concrete constructor validates `split` first: for a
split outside `{"train", "val", "test"}` construction fails with the
`"Invalid split"` assertion, and for a valid split that assertion passes
and construction proceeds with the rest of the constructor body. -/
theorem c9_split_validation (env : ImageDirs) (fs : FS) (dp split : String)
    (ti : Option (PILImage → PILImage)) (tp : Option (Row → Row))
    (ta : Option (Attribute → Attribute)) (tr : Option (RawText → RawText))
    (ap aa ar : Option PyDict) :
    (split ≠ "train" → split ≠ "val" → split ≠ "test" →
      SimpleShapesImages.init env dp split ti = .error (.assertionError "Invalid split") ∧
      SimpleShapesPretrainedVisual.init fs dp split tp ap =
        .error (.assertionError "Invalid split") ∧
      SimpleShapesAttributes.init fs dp split ta aa =
        .error (.assertionError "Invalid split") ∧
      SimpleShapesRawText.init fs dp split tr ar =
        .error (.assertionError "Invalid split")) ∧
    ((split = "train" ∨ split = "val" ∨ split = "test") →
      SimpleShapesImages.init env dp split ti = SimpleShapesImages.initBody env dp split ti ∧
      SimpleShapesPretrainedVisual.init fs dp split tp ap =
        SimpleShapesPretrainedVisual.initBody fs dp split tp ap ∧
      SimpleShapesAttributes.init fs dp split ta aa =
        SimpleShapesAttributes.initBody fs dp split ta aa ∧
      SimpleShapesRawText.init fs dp split tr ar =
        SimpleShapesRawText.initBody fs dp split tr ar) := by
  constructor
  · intro h1 h2 h3
    refine ⟨?_, ?_, ?_, ?_⟩ <;>
      simp [SimpleShapesImages.init, SimpleShapesPretrainedVisual.init,
        SimpleShapesAttributes.init, SimpleShapesRawText.init,
        checkSplit_err split h1 h2 h3]
  · intro h
    refine ⟨?_, ?_, ?_, ?_⟩ <;>
      simp [SimpleShapesImages.init, SimpleShapesPretrainedVisual.init,
        SimpleShapesAttributes.init, SimpleShapesRawText.init,
        checkSplit_ok split h]

/-- Claim C9, witness: the invalid split `"foo"` is rejected by all four
constructors and the valid split `"train"` passes the assertion. -/
theorem c9_witness :
    (SimpleShapesImages.init ⟨[]⟩ "d" "foo" none =
        .error (.assertionError "Invalid split") ∧
      SimpleShapesPretrainedVisual.init ⟨[]⟩ "d" "foo" none none =
        .error (.assertionError "Invalid split") ∧
      SimpleShapesAttributes.init ⟨[]⟩ "d" "foo" none none =
        .error (.assertionError "Invalid split") ∧
      SimpleShapesRawText.init ⟨[]⟩ "d" "foo" none none =
        .error (.assertionError "Invalid split")) ∧
    (SimpleShapesImages.init ⟨[]⟩ "d" "train" none =
        SimpleShapesImages.initBody ⟨[]⟩ "d" "train" none ∧
      SimpleShapesPretrainedVisual.init ⟨[]⟩ "d" "train" none none =
        SimpleShapesPretrainedVisual.initBody ⟨[]⟩ "d" "train" none none ∧
      SimpleShapesAttributes.init ⟨[]⟩ "d" "train" none none =
        SimpleShapesAttributes.initBody ⟨[]⟩ "d" "train" none none ∧
      SimpleShapesRawText.init ⟨[]⟩ "d" "train" none none =
        SimpleShapesRawText.initBody ⟨[]⟩ "d" "train" none none) :=
  ⟨(c9_split_validation ⟨[]⟩ ⟨[]⟩ "d" "foo" none none none none none none none).1
      (by decide) (by decide) (by decide),
   (c9_split_validation ⟨[]⟩ ⟨[]⟩ "d" "train" none none none none none none none).2
      (Or.inl rfl)⟩

/-- Claim C2: a missing required backing file fails the constructor
itself, before any `__getitem__` exists to be called: a
`SimpleShapesPretrainedVisual` whose (defaulted or supplied)
`presaved_path` resolves to an absent file fails with the
`np.load` file-not-found error, and a `SimpleShapesAttributes` with
`n_unpaired >= 1` and no unpaired file fails with the explicit
`ValueError` — these are the concrete realizations of the spec's
`ConfigurationError`. -/
theorem c2_missing_backing_file :
    (∀ (fs : FS) (dp split : String) (t : Option (Row → Row)) (args : Option PyDict)
        (pv : PyVal),
      (split = "train" ∨ split = "val" ∨ split = "test") →
      dictGet (dictUpdate pretrainedDefaults (args.getD [])) "presaved_path" = .ok pv →
      fs.files.lookup (dp ++ "/saved_latents/" ++ split ++ "/" ++ pv.toStr) = none →
      SimpleShapesPretrainedVisual.init fs dp split t args = .error .fileNotFoundError) ∧
    (∀ (fs : FS) (dp split : String) (t : Option (Attribute → Attribute)) (d : PyDict)
        (labels : Table) (nv : PyVal) (n : Int),
      (split = "train" ∨ split = "val" ∨ split = "test") →
      fs.load (dp ++ "/" ++ split ++ "_labels.npy") = .ok (.f2 labels) →
      d.isEmpty = false →
      d.lookup "n_unpaired" = some nv →
      nv.toIntE = .ok n → 1 ≤ n →
      fs.existsFile (dp ++ "/" ++ split ++ "_unpaired.npy") = false →
      SimpleShapesAttributes.init fs dp split t (some d) =
        .error (.valueError
          "Asking for an unpaired attribute, but there is no unpaired label file.")) := by
  constructor
  · intro fs dp split t args pv hsplit hpv hmiss
    simp [SimpleShapesPretrainedVisual.init, SimpleShapesPretrainedVisual.initBody,
      checkSplit_ok split hsplit, hpv, FS.load_none fs _ hmiss]
  · intro fs dp split t d labels nv n hsplit hl hne hnv hn h1 hnofile
    simp [SimpleShapesAttributes.init, SimpleShapesAttributes.initBody,
      checkSplit_ok split hsplit, hl, NpData.asF2, hne, dictGet, hnv, hn, h1, hnofile]

/-- Claim C2, witness: an empty filesystem fails the pretrained-latent
constructor, and a filesystem holding only the labels file fails the
attributes constructor asked for one unpaired column. -/
theorem c2_witness :
    SimpleShapesPretrainedVisual.init ⟨[]⟩ "d" "train" none none =
      .error .fileNotFoundError ∧
    SimpleShapesAttributes.init ⟨[("d/train_labels.npy", .f2 [[1]])]⟩ "d" "train" none
        (some [("n_unpaired", .int 1)]) =
      .error (.valueError
        "Asking for an unpaired attribute, but there is no unpaired label file.") :=
  ⟨c2_missing_backing_file.1 ⟨[]⟩ "d" "train" none none (.str ".") (Or.inl rfl) rfl rfl,
   c2_missing_backing_file.2 ⟨[("d/train_labels.npy", .f2 [[1]])]⟩ "d" "train" none
     [("n_unpaired", .int 1)] [[1]] (.int 1) 1 (Or.inl rfl) rfl rfl rfl rfl
     (by decide) rfl⟩

/-- Claim C3, counterexample: `SimpleShapesRawText.__init__` performs no
cross-table length check — with a 2-row caption table and a 1-row choice
table construction succeeds (no `LengthMismatchError`) and the length is
taken from the caption table alone. -/
theorem c3_counterexample :
    SimpleShapesRawText.init fsMM "d" "train" none none = .ok ⟨["a", "b"], [ch0], none⟩ ∧
    SimpleShapesRawText.len ⟨["a", "b"], [ch0], none⟩ = 2 := by
  constructor <;> rfl

/-- Claim C3, amended: no constructor checks cross-table lengths.
`SimpleShapesRawText` constructs successfully from caption and choice
tables of any lengths and reports the caption table's length;
a mismatch surfaces only as `IndexError` on a later `get` of an index
beyond the shorter table; and `SimpleShapesText` takes its length from
the embedding table alone. -/
theorem c3_amended :
    (∀ (fs : FS) (dp split : String) (t : Option (RawText → RawText))
        (a : Option PyDict) (caps : List String) (chs : List Choice),
      (split = "train" ∨ split = "val" ∨ split = "test") →
      fs.load (dp ++ "/" ++ split ++ "_captions.npy") = .ok (.strs caps) →
      fs.load (dp ++ "/" ++ split ++ "_caption_choices.npy") = .ok (.chs chs) →
      SimpleShapesRawText.init fs dp split t a = .ok ⟨caps, chs, t⟩ ∧
      SimpleShapesRawText.len ⟨caps, chs, t⟩ = caps.length) ∧
    (∀ (s : SimpleShapesRawText) (i : Nat),
      s.choices.length ≤ i → i < s.captions.length →
      s.getitem (i : Int) = .error .indexError) ∧
    (∀ s : SimpleShapesText, s.len = s.bert_data.length) := by
  refine ⟨?_, ?_, ?_⟩
  · intro fs dp split t a caps chs hsplit hc hch
    exact ⟨rawTextInit_ok fs dp split t a caps chs hsplit hc hch, rfl⟩
  · intro s i hle hlt
    simp [SimpleShapesRawText.getitem, pyGet_lt _ _ hlt, pyGet_ge _ _ hle]
  · intro s
    rfl

/-- Claim C3, witness for the amended theorem on the concrete mismatched
filesystem: construction succeeds and `get(1)` then fails with
`IndexError` on the shorter choices table. -/
theorem c3_witness :
    (SimpleShapesRawText.init fsMM "d" "train" none none =
        .ok ⟨["a", "b"], [ch0], none⟩ ∧
      SimpleShapesRawText.len ⟨["a", "b"], [ch0], none⟩ =
        (["a", "b"] : List String).length) ∧
    SimpleShapesRawText.getitem ⟨["a", "b"], [ch0], none⟩ ((1 : Nat) : Int) =
      .error .indexError :=
  ⟨c3_amended.1 fsMM "d" "train" none none ["a", "b"] [ch0] (Or.inl rfl) rfl rfl,
   c3_amended.2.1 ⟨["a", "b"], [ch0], none⟩ 1 (by decide) (by decide)⟩

/-- Claim C7: `SimpleShapesText.__getitem__` is a joined parallel lookup:
construction normalizes the loaded embedding table by the stored mean and
std, and `get(i)` returns the caption and choice from the delegated
raw-text tables at `i`, the normalized embedding row at `i`, and the
Attribute its delegated attribute source produces at `i`. -/
theorem c7_text_joined_record (fs : FS) (dp split : String) (caps : List String)
    (chs : List Choice) (labels : Table) (mean std : Row) (bert : Table) (i : Nat)
    (hsplit : split = "train" ∨ split = "val" ∨ split = "test")
    (hc : fs.load (dp ++ "/" ++ split ++ "_captions.npy") = .ok (.strs caps))
    (hch : fs.load (dp ++ "/" ++ split ++ "_caption_choices.npy") = .ok (.chs chs))
    (hl : fs.load (dp ++ "/" ++ split ++ "_labels.npy") = .ok (.f2 labels))
    (hm : fs.load (dp ++ "/" ++ "latent" ++ "_mean.npy") = .ok (.f1 mean))
    (hs : fs.load (dp ++ "/" ++ "latent" ++ "_std.npy") = .ok (.f1 std))
    (hb : fs.load (dp ++ "/" ++ split ++ "_" ++ "latent" ++ ".npy") = .ok (.f2 bert))
    (hic : i < caps.length) (hich : i < chs.length) (hib : i < bert.length)
    (hil : i < labels.length) (hrow : 8 ≤ (labels.get ⟨i, hil⟩).length) :
    SimpleShapesText.init fs dp split none none =
      .ok ⟨⟨caps, chs, none⟩, ⟨labels, none, none⟩,
           bert.map (fun row => normalizeRow row mean std), none⟩ ∧
    SimpleShapesAttributes.getitem ⟨labels, none, none⟩ (i : Int) =
      .ok (attrOfRow (labels.get ⟨i, hil⟩)) ∧
    SimpleShapesText.getitem
        ⟨⟨caps, chs, none⟩, ⟨labels, none, none⟩,
         bert.map (fun row => normalizeRow row mean std), none⟩ (i : Int) =
      .ok { caption := caps.get ⟨i, hic⟩,
            bert := normalizeRow (bert.get ⟨i, hib⟩) mean std,
            choice := chs.get ⟨i, hich⟩,
            attr := attrOfRow (labels.get ⟨i, hil⟩) } := by
  refine ⟨textInit_ok fs dp split none none caps chs labels mean std bert hsplit rfl
      hc hch hl hm hs hb,
    attributesGetitem_row labels (labels.get ⟨i, hil⟩) (i : Int)
      (pyGet_lt labels i hil) hrow, ?_⟩
  have hmi : i < (bert.map (fun row => normalizeRow row mean std)).length := by
    simpa using hib
  have hbg : pyGet (bert.map (fun row => normalizeRow row mean std)) (i : Int) =
      .ok (normalizeRow (bert.get ⟨i, hib⟩) mean std) := by
    rw [pyGet_lt _ i hmi]
    congr 1
    simp [List.get_eq_getElem, List.getElem_map]
  simp [SimpleShapesText.getitem, rawTextGetitem_none caps chs i hic hich, hbg,
    attributesGetitem_row labels (labels.get ⟨i, hil⟩) (i : Int)
      (pyGet_lt labels i hil) hrow]

/-- Claim C7, witness: the single-row concrete text dataset. -/
theorem c7_witness :
    SimpleShapesText.init fsTextAll "d" "train" none none =
      .ok ⟨⟨["a"], [ch0], none⟩, ⟨[[0, 0, 0, 0, 0, 0, 0, 0]], none, none⟩,
           ([[2]] : Table).map (fun row => normalizeRow row [0] [1]), none⟩ ∧
    SimpleShapesAttributes.getitem ⟨[[0, 0, 0, 0, 0, 0, 0, 0]], none, none⟩
        ((0 : Nat) : Int) =
      .ok (attrOfRow (([[0, 0, 0, 0, 0, 0, 0, 0]] : Table).get ⟨0, by decide⟩)) ∧
    SimpleShapesText.getitem
        ⟨⟨["a"], [ch0], none⟩, ⟨[[0, 0, 0, 0, 0, 0, 0, 0]], none, none⟩,
         ([[2]] : Table).map (fun row => normalizeRow row [0] [1]), none⟩
        ((0 : Nat) : Int) =
      .ok { caption := (["a"] : List String).get ⟨0, by decide⟩,
            bert := normalizeRow (([[2]] : Table).get ⟨0, by decide⟩) [0] [1],
            choice := ([ch0] : List Choice).get ⟨0, by decide⟩,
            attr := attrOfRow (([[0, 0, 0, 0, 0, 0, 0, 0]] : Table).get ⟨0, by decide⟩) } :=
  c7_text_joined_record fsTextAll "d" "train" ["a"] [ch0] [[0, 0, 0, 0, 0, 0, 0, 0]]
    [0] [1] [[2]] 0 (Or.inl rfl) rfl rfl rfl rfl rfl rfl (by decide) (by decide)
    (by decide) (by decide) (by decide)

/-- Claim C8, counterexample: an unrecognized `additional_args` key is
not an error — with the backing files present, constructing
`SimpleShapesPretrainedVisual` with `{"bogus": 1}` succeeds (the key is
silently merged into the defaults dict) and constructing
`SimpleShapesText` with `{"bogus": 1}` succeeds (the key is silently
ignored). -/
theorem c8_counterexample :
    SimpleShapesPretrainedVisual.init fsPre "d" "train" none (some [("bogus", .int 1)]) =
      .ok ⟨[[1]], [0], pretrainedDefaults ++ [("bogus", .int 1)], none⟩ ∧
    SimpleShapesText.init fsTextAll "d" "train" none (some [("bogus", .int 1)]) =
      .ok ⟨⟨["a"], [ch0], none⟩, ⟨[[0, 0, 0, 0, 0, 0, 0, 0]], none, none⟩,
           [normalizeRow [2] [0] [1]], none⟩ := by
  constructor <;> rfl

/-- Claim C8, amended: an unrecognized key in `additional_args` is
accepted silently: `SimpleShapesPretrainedVisual` merges it into its
stored defaults dict and otherwise constructs exactly as without it, and
`SimpleShapesText` constructs to the same state with the key as
without it. -/
theorem c8_amended :
    (∀ (fs : FS) (dp split : String) (t : Option (Row → Row)) (k : String) (v : PyVal)
        (lat : Table),
      (split = "train" ∨ split = "val" ∨ split = "test") →
      k ≠ "presaved_path" → k ≠ "use_unpaired" →
      fs.load (dp ++ "/saved_latents/" ++ split ++ "/" ++ ".") = .ok (.f2 lat) →
      SimpleShapesPretrainedVisual.init fs dp split t (some [(k, v)]) =
        .ok ⟨lat, List.replicate lat.length 0, pretrainedDefaults ++ [(k, v)], t⟩) ∧
    (∀ (fs : FS) (dp split : String) (t : Option (Text → Text)) (k : String) (v : PyVal)
        (caps : List String) (chs : List Choice) (labels : Table) (mean std : Row)
        (bert : Table),
      (split = "train" ∨ split = "val" ∨ split = "test") →
      k ≠ "latent_filename" →
      fs.load (dp ++ "/" ++ split ++ "_captions.npy") = .ok (.strs caps) →
      fs.load (dp ++ "/" ++ split ++ "_caption_choices.npy") = .ok (.chs chs) →
      fs.load (dp ++ "/" ++ split ++ "_labels.npy") = .ok (.f2 labels) →
      fs.load (dp ++ "/" ++ "latent" ++ "_mean.npy") = .ok (.f1 mean) →
      fs.load (dp ++ "/" ++ "latent" ++ "_std.npy") = .ok (.f1 std) →
      fs.load (dp ++ "/" ++ split ++ "_" ++ "latent" ++ ".npy") = .ok (.f2 bert) →
      SimpleShapesText.init fs dp split t (some [(k, v)]) =
        SimpleShapesText.init fs dp split t none) := by
  constructor
  · intro fs dp split t k v lat hsplit hk1 hk2 hlat
    have hany : pretrainedDefaults.any (fun p => p.1 == k) = false := by
      simp only [pretrainedDefaults, List.any_cons, List.any_nil, Bool.or_false,
        Bool.or_eq_false_iff, beq_eq_false_iff_ne]
      exact ⟨Ne.symm hk1, Ne.symm hk2⟩
    have hupd : dictUpdate pretrainedDefaults [(k, v)] = pretrainedDefaults ++ [(k, v)] :=
      dictUpdate_single_new pretrainedDefaults k v hany
    have hpv : dictGet (pretrainedDefaults ++ [(k, v)]) "presaved_path" =
        .ok (.str ".") := rfl
    have huv : dictGet (pretrainedDefaults ++ [(k, v)]) "use_unpaired" =
        .ok (.bool false) := rfl
    simp [SimpleShapesPretrainedVisual.init, SimpleShapesPretrainedVisual.initBody,
      checkSplit_ok split hsplit, hupd, hpv, huv, hlat, NpData.asF2, PyVal.truthy,
      PyVal.toStr]
  · intro fs dp split t k v caps chs labels mean std bert hsplit hk hc hch hl hm hs hb
    have hkf : ("latent_filename" == k) = false := beq_eq_false_iff_ne.mpr (Ne.symm hk)
    have hlf : dictGetStrD ((some [(k, v)]).getD []) "latent_filename" "latent" =
        "latent" := by
      simp [dictGetStrD, List.lookup, hkf]
    rw [textInit_ok fs dp split t (some [(k, v)]) caps chs labels mean std bert hsplit
          hlf hc hch hl hm hs hb,
        textInit_ok fs dp split t none caps chs labels mean std bert hsplit rfl
          hc hch hl hm hs hb]

/-- Claim C8, witness for the amended theorem with the key `"bogus"`. -/
theorem c8_witness :
    SimpleShapesPretrainedVisual.init fsPre "d" "train" none (some [("bogus", .int 1)]) =
      .ok ⟨[[1]], List.replicate ([[1]] : Table).length 0,
           pretrainedDefaults ++ [("bogus", .int 1)], none⟩ ∧
    SimpleShapesText.init fsTextAll "d" "train" none (some [("bogus", .int 1)]) =
      SimpleShapesText.init fsTextAll "d" "train" none none :=
  ⟨c8_amended.1 fsPre "d" "train" none "bogus" (.int 1) [[1]] (Or.inl rfl)
      (by decide) (by decide) rfl,
   c8_amended.2 fsTextAll "d" "train" none "bogus" (.int 1) ["a"] [ch0]
      [[0, 0, 0, 0, 0, 0, 0, 0]] [0] [1] [[2]] (Or.inl rfl) (by decide)
      rfl rfl rfl rfl rfl rfl⟩

/-- Claim C10: with the default options the constructed attribute source
has no unpaired table, and `__getitem__` decodes a label row by scaling
only the color columns: `attrOfRow` spells out that `category` is column
0 truncated to an integer, `x`, `y`, `size`, `rotation` are columns 1–4
unchanged, the colors are columns 5–7 divided by 255, and `unpaired` is
`None`. -/
theorem c10_attribute_fields (fs : FS) (dp split : String) (labels : Table) (i : Nat)
    (hsplit : split = "train" ∨ split = "val" ∨ split = "test")
    (hl : fs.load (dp ++ "/" ++ split ++ "_labels.npy") = .ok (.f2 labels))
    (hi : i < labels.length) (hrow : 8 ≤ (labels.get ⟨i, hi⟩).length) :
    SimpleShapesAttributes.init fs dp split none none = .ok ⟨labels, none, none⟩ ∧
    SimpleShapesAttributes.getitem ⟨labels, none, none⟩ (i : Int) =
      .ok (attrOfRow (labels.get ⟨i, hi⟩)) :=
  ⟨attributesInit_default_ok fs dp split none labels hsplit hl,
   attributesGetitem_row labels (labels.get ⟨i, hi⟩) (i : Int) (pyGet_lt labels i hi)
     hrow⟩

/-- Claim C10, witness: the concrete row `[9, 1, 2, 3, 4, 51, 102, 255]`. -/
theorem c10_witness :
    SimpleShapesAttributes.init fsLab "d" "train" none none =
      .ok ⟨[[9, 1, 2, 3, 4, 51, 102, 255]], none, none⟩ ∧
    SimpleShapesAttributes.getitem ⟨[[9, 1, 2, 3, 4, 51, 102, 255]], none, none⟩
        ((0 : Nat) : Int) =
      .ok (attrOfRow (([[9, 1, 2, 3, 4, 51, 102, 255]] : Table).get ⟨0, by decide⟩)) :=
  c10_attribute_fields fsLab "d" "train" [[9, 1, 2, 3, 4, 51, 102, 255]] 0
    (Or.inl rfl) rfl (by decide) (by decide)

end SimpleShapes
